import Mathlib

/-!
Verification of the CQRS mediator module (`src/types.ts`, `src/mediator.ts`).

The development shallowly embeds the two components of the module:

* the `Result` outcome wrapper (success/failure container with `isSuccess`,
  `getValue`, `unwrap` and `map`), and
* the `Mediator` dispatcher (two string-keyed registries backed by JS `Map`s,
  and a `dispatch` operation discriminating on the request's `kind` field and
  looking handlers up by the request's runtime constructor name).

JS runtime conventions used by the embedding:

* A TS value of type `T | undefined` is embedded as `Option T`
  (`none` = `undefined`).
* The `error` slot of `Result` is embedded as `ErrSlot E`, which separates the
  three JS runtime values that can actually reach it: `undefined`, `null`
  (only via a type-unsound call of `Result.failure`), and an actual `Error`
  object.  JS strict equality `x === undefined` holds only for `undefined`,
  while JS truthiness (`if (x)`) holds exactly for an `Error` object.
* An `async` operation that can reject (throw) is embedded as
  `Except X _` where `X` is the type of thrown exceptions; a function whose
  body cannot throw is embedded as a total Lean function.
-/

namespace CQRS

/-- A JS `Error` descriptor: `new Error(message)`. -/
structure JsError where
  message : String
deriving DecidableEq, Repr

/-- The JS runtime value stored in the `error` slot of a `Result`
(declared `Error | undefined` in TS; `null` can reach it only through a
type-unsound call of `Result.failure`). -/
inductive ErrSlot (E : Type) where
  | undef : ErrSlot E
  | null : ErrSlot E
  | val : E → ErrSlot E
deriving DecidableEq, Repr

/-- JS strict equality `slot === undefined`. -/
def ErrSlot.isUndefined : ErrSlot E → Bool
  | .undef => true
  | _ => false

/-- JS truthiness of the error slot: `undefined` and `null` are falsy,
an `Error` object is truthy. -/
def ErrSlot.truthy : ErrSlot E → Bool
  | .val _ => true
  | _ => false

/-- The `Result` wrapper of `src/types.ts`: a pair of a possibly-absent value
(`TValue | undefined`) and an error slot (`Error | undefined` by type,
`ErrSlot` at runtime). -/
structure Result (V : Type) (E : Type) where
  value : Option V
  error : ErrSlot E
deriving DecidableEq, Repr

/-- `Result.success(value?)`: `new Result(value, undefined)`.  The optional
TS parameter is embedded as an `Option`: `Result.success()` is
`Result.success none`. -/
def Result.success (value : Option V) : Result V E :=
  ⟨value, ErrSlot.undef⟩

/-- `Result.failure(error)`: `new Result(undefined, error)`.  The parameter is
typed `Error` in TS, but a type-unsound caller can pass `undefined` or `null`,
so the embedded parameter ranges over the full runtime domain `ErrSlot E`. -/
def Result.failure (error : ErrSlot E) : Result V E :=
  ⟨none, error⟩

/-- `isSuccess()`: `return this.error === undefined`. -/
def Result.isSuccess (r : Result V E) : Bool :=
  r.error.isUndefined

/-- `getValue()`: `return this.value`.  The body is a plain field read, so it
is embedded as a total function: it can never throw. -/
def Result.getValue (r : Result V E) : Option V :=
  r.value

/-- `unwrap()`: `if (this.error) throw this.error; return this.value!`.
The guard is JS truthiness of the error slot, so an `Error` is thrown exactly
when the slot holds one; `undefined` and `null` slots fall through to
returning the (possibly absent) value. -/
def Result.unwrap (r : Result V E) : Except E (Option V) :=
  match r.error with
  | ErrSlot.val e => Except.error e
  | _ => Except.ok r.value

/-- `map(fn)`: `if (this.isSuccess()) return Result.success(fn(this.value!));
return Result.failure(this.error!)`.  The transform is a JS function, total on
the runtime domain `TValue | undefined`, hence embedded as
`Option V → Option W`; a present held value `v` is passed as `some v`. -/
def Result.map (fn : Option V → Option W) (r : Result V E) : Result W E :=
  if r.isSuccess then Result.success (fn r.value) else Result.failure r.error

/-- A request as seen by `Mediator.dispatch` (`Command<any> | Query<any, any>`):
the dispatcher consults only the `kind` discriminator field and the runtime
constructor name `request.constructor.name`; everything else about the request
(correlation id, timestamp, payload or params) is opaque to it and is embedded
as the `payload` field. `kind` is a plain string so that malformed requests
(kind neither "command" nor "query") are representable. -/
structure Message (P : Type) where
  kind : String
  ctorName : String
  payload : P

/-- A handler (`CommandHandler` or `QueryHandler`): one async `handle`
operation taking the request and producing a `Result` — or throwing, which is
embedded as `Except.error` with exception type `X`.  (In the source the two
handler interfaces differ only in the TS-level result type, erased to `any`
inside `dispatch`; both are embedded by this one shape with carried-value
type `V`.) -/
structure Handler (P V X : Type) where
  handle : Message P → Except X (Result V JsError)

/-- `Map.prototype.get` on a string-keyed JS `Map`, embedded as an
association-list lookup (JS `Map` compares string keys by string equality). -/
def mapGet (m : List (String × H)) (k : String) : Option H :=
  match m with
  | [] => none
  | (k2, v) :: rest => if k2 = k then some v else mapGet rest k

/-- `Map.prototype.set` on a string-keyed JS `Map`: replaces the value in
place when the key is present (keeping insertion order), appends a new entry
otherwise. -/
def mapSet (m : List (String × H)) (k : String) (v : H) : List (String × H) :=
  match m with
  | [] => [(k, v)]
  | (k2, v2) :: rest =>
      if k2 = k then (k, v) :: rest else (k2, v2) :: mapSet rest k v

/-- The `Mediator` of `src/mediator.ts`: two string-keyed registries, one for
command handlers and one for query handlers, both starting empty
(`new Map()`). -/
structure Mediator (P V X : Type) where
  commandHandlers : List (String × Handler P V X) := []
  queryHandlers : List (String × Handler P V X) := []

/-- `registerCommandHandler(commandType, handler)`:
`this.commandHandlers.set(commandType, handler)`.  Total — registration has
no failure mode. -/
def Mediator.registerCommandHandler (m : Mediator P V X)
    (commandType : String) (handler : Handler P V X) : Mediator P V X :=
  { m with commandHandlers := mapSet m.commandHandlers commandType handler }

/-- `registerQueryHandler(queryType, handler)`:
`this.queryHandlers.set(queryType, handler)`. -/
def Mediator.registerQueryHandler (m : Mediator P V X)
    (queryType : String) (handler : Handler P V X) : Mediator P V X :=
  { m with queryHandlers := mapSet m.queryHandlers queryType handler }

/-- `dispatch(message)`: branch on `message.kind`; look the handler up by
`message.constructor.name` in the matching registry; if absent return a
synthesized Failure, if present return `handler.handle(message)` verbatim
(so a rejection of the handler's promise is the rejection of `dispatch`);
a `kind` that is neither "command" nor "query" falls through to the
invalid-message Failure. -/
def Mediator.dispatch (m : Mediator P V X) (message : Message P) :
    Except X (Result V JsError) :=
  if message.kind = "command" then
    match mapGet m.commandHandlers message.ctorName with
    | none => Except.ok (Result.failure (ErrSlot.val
        (JsError.mk ("No handler for command: " ++ message.ctorName))))
    | some handler => handler.handle message
  else if message.kind = "query" then
    match mapGet m.queryHandlers message.ctorName with
    | none => Except.ok (Result.failure (ErrSlot.val
        (JsError.mk ("No handler for query: " ++ message.ctorName))))
    | some handler => handler.handle message
  else
    Except.ok (Result.failure (ErrSlot.val
      (JsError.mk "Invalid message type: neither Command nor Query")))

/-- A request built as a plain object literal.  Modelled from JS runtime
semantics: an object literal's prototype is `Object.prototype`, so its
`constructor` is `Object` and `request.constructor.name` is the string
"Object", whatever the literal's own fields hold. -/
def plainObjectMsg (kind : String) (payload : P) : Message P :=
  ⟨kind, "Object", payload⟩

/-- Fixture: a command handler that succeeds with the value 7. -/
def natHandler : Handler Nat Nat Nat :=
  ⟨fun _ => Except.ok (Result.success (some 7))⟩

/-- Fixture: a handler that throws the exception 42. -/
def throwingHandler : Handler Nat Nat Nat :=
  ⟨fun _ => Except.error 42⟩

/-- Fixture: a query handler that fails with "User not found". -/
def failingHandler : Handler Nat Nat Nat :=
  ⟨fun _ => Except.ok (Result.failure (ErrSlot.val
    (JsError.mk "User not found")))⟩

/-- Fixture: a command message of runtime class `CreateUserCommand`. -/
def cmdMsgEx : Message Nat := ⟨"command", "CreateUserCommand", 0⟩

/-- Fixture: a query message of runtime class `GetUserQuery`. -/
def qryMsgEx : Message Nat := ⟨"query", "GetUserQuery", 0⟩

/-- Fixture: a malformed request whose kind is neither "command" nor
"query". -/
def invalidMsgEx : Message Nat := ⟨"invalid", "Object", 0⟩

/-- Fixture: a freshly constructed mediator with empty registries. -/
def emptyMed : Mediator Nat Nat Nat := {}

/-- Fixture: a mediator with one command handler and one query handler
registered. -/
def medEx : Mediator Nat Nat Nat :=
  (emptyMed.registerCommandHandler "CreateUserCommand" natHandler
    ).registerQueryHandler "GetUserQuery" failingHandler

end CQRS

namespace CQRS

theorem mapGet_mapSet_self (m : List (String × H)) (k : String) (v : H) :
    mapGet (mapSet m k v) k = some v := by
  induction m with
  | nil => simp [mapSet, mapGet]
  | cons hd tl ih =>
      obtain ⟨k2, v2⟩ := hd
      by_cases h : k2 = k
      · simp [mapSet, mapGet, h]
      · simp [mapSet, mapGet, h, ih]

theorem mapGet_mapSet_ne (m : List (String × H)) (k k2 : String) (v : H)
    (h : k ≠ k2) : mapGet (mapSet m k v) k2 = mapGet m k2 := by
  induction m with
  | nil => simp [mapSet, mapGet, h]
  | cons hd tl ih =>
      obtain ⟨k3, v3⟩ := hd
      by_cases h2 : k3 = k
      · subst h2
        simp [mapSet, mapGet, h]
      · simp [mapSet, mapGet, h2, ih]

theorem mapSet_mapSet_self (m : List (String × H)) (k : String) (v1 v2 : H) :
    mapSet (mapSet m k v1) k v2 = mapSet m k v2 := by
  induction m with
  | nil => simp [mapSet]
  | cons hd tl ih =>
      obtain ⟨k3, v3⟩ := hd
      by_cases h : k3 = k
      · simp [mapSet, h]
      · simp [mapSet, h, ih]

theorem dispatch_command_eq (m : Mediator P V X) (msg : Message P)
    (hk : msg.kind = "command") :
    m.dispatch msg = match mapGet m.commandHandlers msg.ctorName with
      | none => Except.ok (Result.failure (ErrSlot.val
          (JsError.mk ("No handler for command: " ++ msg.ctorName))))
      | some handler => handler.handle msg := by
  unfold Mediator.dispatch
  rw [if_pos hk]

theorem dispatch_query_eq (m : Mediator P V X) (msg : Message P)
    (hk : msg.kind = "query") :
    m.dispatch msg = match mapGet m.queryHandlers msg.ctorName with
      | none => Except.ok (Result.failure (ErrSlot.val
          (JsError.mk ("No handler for query: " ++ msg.ctorName))))
      | some handler => handler.handle msg := by
  have hc : msg.kind ≠ "command" := by rw [hk]; decide
  unfold Mediator.dispatch
  rw [if_neg hc, if_pos hk]

theorem dispatch_command_registered (m : Mediator P V X) (msg : Message P)
    (handler : Handler P V X) (hk : msg.kind = "command")
    (hr : mapGet m.commandHandlers msg.ctorName = some handler) :
    m.dispatch msg = handler.handle msg := by
  rw [dispatch_command_eq m msg hk, hr]

theorem dispatch_query_registered (m : Mediator P V X) (msg : Message P)
    (handler : Handler P V X) (hk : msg.kind = "query")
    (hr : mapGet m.queryHandlers msg.ctorName = some handler) :
    m.dispatch msg = handler.handle msg := by
  rw [dispatch_query_eq m msg hk, hr]

theorem dispatch_command_absent (m : Mediator P V X) (msg : Message P)
    (hk : msg.kind = "command")
    (hr : mapGet m.commandHandlers msg.ctorName = none) :
    m.dispatch msg = Except.ok (Result.failure (ErrSlot.val
      (JsError.mk ("No handler for command: " ++ msg.ctorName)))) := by
  rw [dispatch_command_eq m msg hk, hr]

theorem dispatch_query_absent (m : Mediator P V X) (msg : Message P)
    (hk : msg.kind = "query")
    (hr : mapGet m.queryHandlers msg.ctorName = none) :
    m.dispatch msg = Except.ok (Result.failure (ErrSlot.val
      (JsError.mk ("No handler for query: " ++ msg.ctorName)))) := by
  rw [dispatch_query_eq m msg hk, hr]

/-- Claim C1: dispatching a request whose resolved type name has a registered
handler returns exactly that handler's outcome, unchanged — including any
Failure the handler produces — for both the command and the query registry;
and an exception raised inside the handler propagates to the caller of
`dispatch` rather than being converted to a Failure. -/
theorem dispatch_registered_handler_verbatim (m : Mediator P V X)
    (msg : Message P) :
    (∀ handler : Handler P V X, msg.kind = "command" →
        mapGet m.commandHandlers msg.ctorName = some handler →
        m.dispatch msg = handler.handle msg)
      ∧ (∀ handler : Handler P V X, msg.kind = "query" →
        mapGet m.queryHandlers msg.ctorName = some handler →
        m.dispatch msg = handler.handle msg)
      ∧ (∀ (handler : Handler P V X) (ex : X), msg.kind = "command" →
        mapGet m.commandHandlers msg.ctorName = some handler →
        handler.handle msg = Except.error ex →
        m.dispatch msg = Except.error ex) :=
  ⟨fun handler hk hr => dispatch_command_registered m msg handler hk hr,
   fun handler hk hr => dispatch_query_registered m msg handler hk hr,
   fun handler _ hk hr hh =>
     (dispatch_command_registered m msg handler hk hr).trans hh⟩

theorem dispatch_registered_handler_verbatim_witness :
    cmdMsgEx.kind = "command"
      ∧ mapGet medEx.commandHandlers cmdMsgEx.ctorName = some natHandler
      ∧ medEx.dispatch cmdMsgEx = natHandler.handle cmdMsgEx :=
  ⟨rfl, rfl,
   (dispatch_registered_handler_verbatim medEx cmdMsgEx).1 natHandler rfl rfl⟩

/-- Claim C2: dispatching a command (resp. query) whose resolved type name has
no entry in the matching registry returns — without raising — a Failure whose
message is exactly "No handler for command: T" (resp.
"No handler for query: T"). -/
theorem dispatch_no_handler_failure (m : Mediator P V X) (msg : Message P) :
    (msg.kind = "command" → mapGet m.commandHandlers msg.ctorName = none →
        m.dispatch msg = Except.ok (Result.failure (ErrSlot.val
          (JsError.mk ("No handler for command: " ++ msg.ctorName)))))
      ∧ (msg.kind = "query" → mapGet m.queryHandlers msg.ctorName = none →
        m.dispatch msg = Except.ok (Result.failure (ErrSlot.val
          (JsError.mk ("No handler for query: " ++ msg.ctorName))))) :=
  ⟨fun hk hr => dispatch_command_absent m msg hk hr,
   fun hk hr => dispatch_query_absent m msg hk hr⟩

theorem dispatch_no_handler_failure_witness :
    (cmdMsgEx.kind = "command"
      ∧ mapGet emptyMed.commandHandlers cmdMsgEx.ctorName = none
      ∧ emptyMed.dispatch cmdMsgEx = Except.ok (Result.failure (ErrSlot.val
          (JsError.mk "No handler for command: CreateUserCommand"))))
    ∧ (qryMsgEx.kind = "query"
      ∧ mapGet emptyMed.queryHandlers qryMsgEx.ctorName = none
      ∧ emptyMed.dispatch qryMsgEx = Except.ok (Result.failure (ErrSlot.val
          (JsError.mk "No handler for query: GetUserQuery")))) :=
  ⟨⟨rfl, rfl, (dispatch_no_handler_failure emptyMed cmdMsgEx).1 rfl rfl⟩,
   ⟨rfl, rfl, (dispatch_no_handler_failure emptyMed qryMsgEx).2 rfl rfl⟩⟩

/-- Claim C4: dispatching a request whose kind is neither "command" nor
"query" returns — without raising — a Failure whose message is exactly
"Invalid message type: neither Command nor Query". -/
theorem dispatch_invalid_kind_failure (m : Mediator P V X) (msg : Message P)
    (hc : msg.kind ≠ "command") (hq : msg.kind ≠ "query") :
    m.dispatch msg = Except.ok (Result.failure (ErrSlot.val
      (JsError.mk "Invalid message type: neither Command nor Query"))) := by
  unfold Mediator.dispatch
  rw [if_neg hc, if_neg hq]

theorem dispatch_invalid_kind_failure_witness :
    invalidMsgEx.kind ≠ "command" ∧ invalidMsgEx.kind ≠ "query"
      ∧ emptyMed.dispatch invalidMsgEx = Except.ok (Result.failure (ErrSlot.val
        (JsError.mk "Invalid message type: neither Command nor Query"))) :=
  ⟨by decide, by decide,
   dispatch_invalid_kind_failure emptyMed invalidMsgEx (by decide) (by decide)⟩

/-- Claim C5: registering a second handler for a type name already registered
silently replaces the first (the resulting registry is identical to one where
only the second registration happened — no accumulation), and subsequent
dispatch of a request resolving to that type name uses only the latest
handler; likewise for the query registry. -/
theorem register_overwrite_last_wins (m : Mediator P V X) (T : String)
    (h1 h2 g1 g2 : Handler P V X) (msg : Message P) :
    ((m.registerCommandHandler T h1).registerCommandHandler T h2).commandHandlers
        = (m.registerCommandHandler T h2).commandHandlers
      ∧ mapGet ((m.registerCommandHandler T h1).registerCommandHandler T
          h2).commandHandlers T = some h2
      ∧ (msg.kind = "command" → msg.ctorName = T →
        ((m.registerCommandHandler T h1).registerCommandHandler T h2).dispatch
          msg = h2.handle msg)
      ∧ ((m.registerQueryHandler T g1).registerQueryHandler T g2).queryHandlers
        = (m.registerQueryHandler T g2).queryHandlers
      ∧ mapGet ((m.registerQueryHandler T g1).registerQueryHandler T
          g2).queryHandlers T = some g2
      ∧ (msg.kind = "query" → msg.ctorName = T →
        ((m.registerQueryHandler T g1).registerQueryHandler T g2).dispatch
          msg = g2.handle msg) := by
  refine ⟨?_, ?_, ?_, ?_, ?_, ?_⟩
  · simp [Mediator.registerCommandHandler, mapSet_mapSet_self]
  · simp [Mediator.registerCommandHandler, mapSet_mapSet_self,
      mapGet_mapSet_self]
  · intro hk hn
    refine dispatch_command_registered _ msg h2 hk ?_
    simp [Mediator.registerCommandHandler, hn, mapSet_mapSet_self,
      mapGet_mapSet_self]
  · simp [Mediator.registerQueryHandler, mapSet_mapSet_self]
  · simp [Mediator.registerQueryHandler, mapSet_mapSet_self,
      mapGet_mapSet_self]
  · intro hk hn
    refine dispatch_query_registered _ msg g2 hk ?_
    simp [Mediator.registerQueryHandler, hn, mapSet_mapSet_self,
      mapGet_mapSet_self]

theorem register_overwrite_last_wins_witness :
    cmdMsgEx.kind = "command" ∧ cmdMsgEx.ctorName = "CreateUserCommand"
      ∧ qryMsgEx.kind = "query" ∧ qryMsgEx.ctorName = "GetUserQuery"
      ∧ mapGet ((emptyMed.registerCommandHandler "CreateUserCommand"
          throwingHandler).registerCommandHandler "CreateUserCommand"
          natHandler).commandHandlers "CreateUserCommand" = some natHandler
      ∧ ((emptyMed.registerCommandHandler "CreateUserCommand"
          throwingHandler).registerCommandHandler "CreateUserCommand"
          natHandler).dispatch cmdMsgEx = natHandler.handle cmdMsgEx
      ∧ ((emptyMed.registerQueryHandler "GetUserQuery"
          natHandler).registerQueryHandler "GetUserQuery"
          failingHandler).dispatch qryMsgEx = failingHandler.handle qryMsgEx :=
  ⟨rfl, rfl, rfl, rfl,
   (register_overwrite_last_wins emptyMed "CreateUserCommand" throwingHandler
     natHandler throwingHandler natHandler cmdMsgEx).2.1,
   (register_overwrite_last_wins emptyMed "CreateUserCommand" throwingHandler
     natHandler throwingHandler natHandler cmdMsgEx).2.2.1 rfl rfl,
   (register_overwrite_last_wins emptyMed "GetUserQuery" throwingHandler
     natHandler natHandler failingHandler qryMsgEx).2.2.2.2.2 rfl rfl⟩

/-- Claim C9: the registry key consulted by dispatch is the request's runtime
constructor name: dispatch reads only the entry at the request's
`constructor.name`; a request built as a plain object literal resolves to the
type name "Object", all plain-object requests of a given kind share that one
key, and registering a handler under any class name other than "Object" never
affects (hence never matches) the dispatch of a plain-object request. -/
theorem dispatch_key_is_constructor_name (m : Mediator P V X) (p p2 : P)
    (k T : String) (h : Handler P V X) :
    (plainObjectMsg k p).ctorName = "Object"
      ∧ (plainObjectMsg k p).ctorName = (plainObjectMsg k p2).ctorName
      ∧ (∀ msg : Message P, ∀ m2 : Mediator P V X, msg.kind = "command" →
        mapGet m2.commandHandlers msg.ctorName
          = mapGet m.commandHandlers msg.ctorName →
        m2.dispatch msg = m.dispatch msg)
      ∧ (mapGet m.commandHandlers "Object" = none →
        m.dispatch (plainObjectMsg "command" p)
          = Except.ok (Result.failure (ErrSlot.val
            (JsError.mk "No handler for command: Object"))))
      ∧ (mapGet m.queryHandlers "Object" = none →
        m.dispatch (plainObjectMsg "query" p)
          = Except.ok (Result.failure (ErrSlot.val
            (JsError.mk "No handler for query: Object"))))
      ∧ (T ≠ "Object" →
        (m.registerCommandHandler T h).dispatch (plainObjectMsg "command" p)
          = m.dispatch (plainObjectMsg "command" p))
      ∧ (T ≠ "Object" →
        (m.registerQueryHandler T h).dispatch (plainObjectMsg "query" p)
          = m.dispatch (plainObjectMsg "query" p)) := by
  refine ⟨rfl, rfl, ?_, ?_, ?_, ?_, ?_⟩
  · intro msg m2 hk hr
    rw [dispatch_command_eq m2 msg hk, dispatch_command_eq m msg hk, hr]
  · intro hr
    exact dispatch_command_absent m (plainObjectMsg "command" p) rfl hr
  · intro hr
    exact dispatch_query_absent m (plainObjectMsg "query" p) rfl hr
  · intro hT
    rw [dispatch_command_eq _ (plainObjectMsg "command" p) rfl,
      dispatch_command_eq m (plainObjectMsg "command" p) rfl]
    have hg : mapGet (Mediator.registerCommandHandler m T h).commandHandlers
        (plainObjectMsg "command" p).ctorName
        = mapGet m.commandHandlers (plainObjectMsg "command" p).ctorName := by
      exact mapGet_mapSet_ne m.commandHandlers T "Object" h hT
    rw [hg]
  · intro hT
    rw [dispatch_query_eq _ (plainObjectMsg "query" p) rfl,
      dispatch_query_eq m (plainObjectMsg "query" p) rfl]
    have hg : mapGet (Mediator.registerQueryHandler m T h).queryHandlers
        (plainObjectMsg "query" p).ctorName
        = mapGet m.queryHandlers (plainObjectMsg "query" p).ctorName := by
      exact mapGet_mapSet_ne m.queryHandlers T "Object" h hT
    rw [hg]

theorem dispatch_key_is_constructor_name_witness :
    (plainObjectMsg "command" (0 : Nat)).ctorName = "Object"
      ∧ mapGet medEx.commandHandlers "Object" = none
      ∧ medEx.dispatch (plainObjectMsg "command" (0 : Nat))
        = Except.ok (Result.failure (ErrSlot.val
          (JsError.mk "No handler for command: Object")))
      ∧ ("CreateUserCommand" : String) ≠ "Object"
      ∧ (medEx.registerCommandHandler "CreateUserCommand" natHandler).dispatch
          (plainObjectMsg "command" (0 : Nat))
        = medEx.dispatch (plainObjectMsg "command" (0 : Nat)) :=
  ⟨(dispatch_key_is_constructor_name medEx (0 : Nat) (0 : Nat) "command"
      "CreateUserCommand" natHandler).1,
   rfl,
   (dispatch_key_is_constructor_name medEx (0 : Nat) (0 : Nat) "command"
      "CreateUserCommand" natHandler).2.2.2.1 rfl,
   by decide,
   (dispatch_key_is_constructor_name medEx (0 : Nat) (0 : Nat) "command"
      "CreateUserCommand" natHandler).2.2.2.2.2.1 (by decide)⟩

/-- Claim C3: `map` on a Failure returns a Failure carrying the identical
error descriptor, and the transform is never invoked (the outcome is
independent of the transform). -/
theorem map_failure_preserves_error (e : JsError) (f g : Option V → Option W) :
    (Result.failure (ErrSlot.val e) : Result V JsError).map f
        = Result.failure (ErrSlot.val e)
      ∧ (Result.failure (ErrSlot.val e) : Result V JsError).map f
        = (Result.failure (ErrSlot.val e) : Result V JsError).map g :=
  ⟨rfl, rfl⟩

/-- Claim C6: `map` on a Success applies the transform to the held value,
wraps it in a new Success, and composes:
`Result.success(v).map(f).map(g) = Result.success(g(f(v)))`. -/
theorem map_success_composes (v : V)
    (f : Option V → Option W) (g : Option W → Option U) :
    ((Result.success (some v) : Result V JsError).map f).map g
      = Result.success (g (f (some v))) :=
  rfl

/-- Claim C7: `unwrap()` on a Success returns the held value without raising;
on a Failure constructed with a non-null error descriptor it raises an
exception equal to the stored error descriptor. -/
theorem unwrap_success_value_failure_throws (o : Option V) (e : JsError) :
    (Result.success o : Result V JsError).unwrap = Except.ok o
      ∧ (Result.failure (ErrSlot.val e) : Result V JsError).unwrap
        = Except.error e :=
  ⟨rfl, rfl⟩

/-- Claim C8 counterexample: `Result.failure(null)` does NOT report
`isSuccess()` as `true` — `null === undefined` is false in JS, so the
constructed outcome reports `isSuccess()` as `false`, refuting the claim for
the null half of its "null/undefined" precondition violation. -/
theorem failure_null_claim_counterexample :
    ¬ ((Result.failure ErrSlot.null : Result Nat JsError).isSuccess = true) := by
  decide

/-- Claim C8 (amended): `Result.failure(undefined)` yields an outcome equal to
the void Success (`isSuccess()` true, `getValue()` and `unwrap()` return
undefined without raising); `Result.failure(null)` instead reports
`isSuccess()` as false, though `getValue()` and `unwrap()` still return
undefined without raising. -/
theorem failure_nullish_no_defense :
    ((Result.failure ErrSlot.undef : Result V JsError).isSuccess = true
      ∧ (Result.failure ErrSlot.undef : Result V JsError).getValue = none
      ∧ (Result.failure ErrSlot.undef : Result V JsError).unwrap
          = Except.ok none
      ∧ (Result.failure ErrSlot.undef : Result V JsError)
          = Result.success none)
    ∧ ((Result.failure ErrSlot.null : Result V JsError).isSuccess = false
      ∧ (Result.failure ErrSlot.null : Result V JsError).getValue = none
      ∧ (Result.failure ErrSlot.null : Result V JsError).unwrap
          = Except.ok none) :=
  ⟨⟨rfl, rfl, rfl, rfl⟩, ⟨rfl, rfl, rfl⟩⟩

/-- Claim C10: `getValue()` returns the absent sentinel (`undefined`) both on
the void Success and on every Failure, and never raises (it is a total field
read); only `isSuccess()` discriminates the two. -/
theorem getValue_absent_on_void_and_failure (e : JsError) (s : ErrSlot JsError) :
    (Result.success (none : Option V) : Result V JsError).getValue = none
      ∧ (Result.failure s : Result V JsError).getValue = none
      ∧ (Result.success (none : Option V) : Result V JsError).getValue
        = (Result.failure (ErrSlot.val e) : Result V JsError).getValue
      ∧ (Result.success (none : Option V) : Result V JsError).isSuccess = true
      ∧ (Result.failure (ErrSlot.val e) : Result V JsError).isSuccess = false :=
  ⟨rfl, rfl, rfl, rfl, rfl⟩

end CQRS
